import Mathlib

/-!
Verification development for the PaddlePanic firmware (a four-paddle arcade
game for an ATtiny1627 driving a small SPI display).

The definitions below are a shallow embedding of the C sources:

* geometry and shape model        — shapes.h / shapes.c
* physics objects and collisions  — physics.c (two revisions are present in
  the repository: the ST7789-era revision, embedded in namespace `Part010`,
  and the SH1106-era revision, embedded in namespace `Part011`; the names
  refer to the source files `src/unnamed/part_010` and `src/unnamed/part_011`)
* game controller                 — game_controller.c together with the
  configuration macros of game_controller.h

Machine integers are embedded as `Int` with explicit truncation applied
exactly where a C conversion truncates: `toInt16` models a store into an
`int16_t` variable, `toInt8` a store into `int8_t`, `toUInt8` a store into
`uint8_t`, `toInt32`/`toUInt16` likewise.  C expression evaluation itself
happens at `int` width (the values reached here never overflow 32 bits
before a store, except where noted), so the expressions between stores are
exact.  C integer division truncates toward zero and is embedded as
`Int.tdiv`.

Fields that only feed rendering (colors, fill flags, `prev_position`, the
draw dispatch pointers) are not modelled; no embedded operation reads them.
The SH1106 `Point` stores `uint8_t` coordinates and the ST7789 revision's
`Point` header is not part of the sources; positions are embedded as
unbounded `Int` and the theorems that depend on a machine width carry
explicit display-scale bounds.
-/

namespace PaddlePanic

/-- Truncating store into an `int16_t` variable. -/
def toInt16 (x : Int) : Int := (x + 32768) % 65536 - 32768

/-- Truncating store into an `int8_t` variable. -/
def toInt8 (x : Int) : Int := (x + 128) % 256 - 128

/-- Truncating store into an `int32_t` variable. -/
def toInt32 (x : Int) : Int := (x + 2147483648) % 4294967296 - 2147483648

/-- Truncating store into a `uint8_t` variable (C unsigned conversion, mod 256). -/
def toUInt8 (x : Int) : Int := x % 256

/-- Truncating store into a `uint16_t` variable (C unsigned conversion, mod 65536). -/
def toUInt16 (x : Int) : Int := x % 65536

/-- `Point` from sh1106_graphics.h (stored there as two `uint8_t` fields;
coordinates are embedded as `Int`, see the file header). -/
structure Point where
  x : Int
  y : Int
deriving DecidableEq

/-- `Vector2D` from physics.h: a velocity/acceleration vector of two
`int8_t` components. -/
structure Vector2D where
  x : Int
  y : Int
deriving DecidableEq

/-- `ShapeType` from shapes.h. -/
inductive ShapeType where
  | circle
  | rectangle
deriving DecidableEq

/-- `RectangleAnchor` from shapes.h. -/
inductive RectangleAnchor where
  | top_left
  | bottom_left
  | center
deriving DecidableEq

/-- `CircleData` from shapes.h (`int16_t radius`). -/
structure CircleData where
  radius : Int
deriving DecidableEq

/-- `RectangleData` from shapes.h (`int16_t width/height`). -/
structure RectangleData where
  anchor : RectangleAnchor
  width : Int
  height : Int
deriving DecidableEq

/-- The `type` tag plus `shape_data` pointer of `Shape`, embedded as a tagged
union (the C code keeps the tag and the pointed-to data consistent by
construction in `create_circle` / `create_rectangle`). -/
inductive ShapeData where
  | circle (c : CircleData)
  | rect (r : RectangleData)
deriving DecidableEq

/-- `Shape` from shapes.h: an origin plus the shape-specific data.
Rendering-only fields (color, fill flag, draw dispatch) are not modelled. -/
structure Shape where
  origin : Point
  data : ShapeData
deriving DecidableEq

/-- The collision callbacks that occur in the program: `collision_bounce`
and `collision_none` (`wall_hit` and `paddle_hit` are wrappers around
`collision_none`, `ball_hit` wraps `collision_bounce`). -/
inductive CollisionCallback where
  | cb_none
  | cb_bounce
deriving DecidableEq

/-- `PhysicsObject` from physics.h.  `visual` is a nullable pointer to the
owned shape; `on_collision` a nullable callback pointer. -/
structure PhysicsObject where
  position : Point
  velocity : Vector2D
  acceleration : Vector2D
  visual : Option Shape
  on_collision : Option CollisionCallback
  collision_enabled : Bool
deriving DecidableEq

/-- `get_shape_type` from shapes.c: returns the tag, `SHAPE_CIRCLE` when the
pointer is NULL. -/
def get_shape_type : Option Shape → ShapeType
  | none => .circle
  | some s =>
    match s.data with
    | .circle _ => .circle
    | .rect _ => .rectangle

/-- The `(CircleData*)(obj->visual->shape_data)` cast.  The dispatcher only
performs it on a shape whose tag is `SHAPE_CIRCLE`; the default is never
reached from `check_collision`. -/
def circle_shape_data : Option Shape → CircleData
  | some { origin := _, data := .circle c } => c
  | _ => { radius := 0 }

/-- The `(RectangleData*)(obj->visual->shape_data)` cast (same remark). -/
def rect_shape_data : Option Shape → RectangleData
  | some { origin := _, data := .rect r } => r
  | _ => { anchor := .top_left, width := 0, height := 0 }

/-- The `obj->visual->origin` direct access (dispatcher guarantees non-NULL). -/
def shape_origin : Option Shape → Point
  | some s => s.origin
  | none => { x := 0, y := 0 }

/-- The `abs` helper macro of physics.c: `((x) < 0 ? -(x) : (x))`. -/
def abs_value_c (x : Int) : Int := if x < 0 then -x else x

/-- `collision_bounce` from physics.c (identical in both revisions): if the
other shape is a rectangle, its aspect picks the axis (taller than wide
negates x, else y); otherwise the axis with the larger absolute positional
delta between the two centers is negated.  Velocity components are `int8_t`. -/
def collision_bounce (self other : PhysicsObject) : PhysicsObject :=
  match get_shape_type other.visual with
  | .rectangle =>
    let rect := rect_shape_data other.visual
    if rect.height > rect.width then
      { self with velocity := { self.velocity with x := toInt8 (-self.velocity.x) } }
    else
      { self with velocity := { self.velocity with y := toInt8 (-self.velocity.y) } }
  | .circle =>
    let dx := toInt16 (self.position.x - other.position.x)
    let dy := toInt16 (self.position.y - other.position.y)
    if abs_value_c dx > abs_value_c dy then
      { self with velocity := { self.velocity with x := toInt8 (-self.velocity.x) } }
    else
      { self with velocity := { self.velocity with y := toInt8 (-self.velocity.y) } }

/-- `collision_none` from physics.c: do nothing. -/
def collision_none (self _other : PhysicsObject) : PhysicsObject := self

/-- Run a collision callback (the C function-pointer call). -/
def run_callback : CollisionCallback → PhysicsObject → PhysicsObject → PhysicsObject
  | .cb_none, self, other => collision_none self other
  | .cb_bounce, self, other => collision_bounce self other

/-- Result of one `check_collision` call: the returned contact flag, the two
objects after any callback side effects, and whether each object's callback
was invoked. -/
structure CollisionOutcome where
  collision : Bool
  objA : Option PhysicsObject
  objB : Option PhysicsObject
  invokedA : Bool
  invokedB : Bool
deriving DecidableEq

namespace Part010

/-- `check_circle_circle_collision` from the ST7789-era physics.c
(src/unnamed/part_010): both squares widened to `int32_t`. -/
def check_circle_circle_collision (objA objB : PhysicsObject) : Bool :=
  let circleA := circle_shape_data objA.visual
  let circleB := circle_shape_data objB.visual
  let dx := toInt16 (objA.position.x - objB.position.x)
  let dy := toInt16 (objA.position.y - objB.position.y)
  let distance_squared := toInt32 (dx * dx + dy * dy)
  let radius_sum := toInt16 (circleA.radius + circleB.radius)
  let radius_sum_squared := toInt32 (radius_sum * radius_sum)
  decide (distance_squared ≤ radius_sum_squared)

/-- Corner resolution switch shared verbatim by `check_circle_rect_collision`
and `check_rect_rect_collision` in part_010: resolve `(top_left,
bottom_right)` from the anchor.  `/ 2` is C integer division. -/
def rect_corners (rect_origin : Point) (rect : RectangleData) : Point × Point :=
  match rect.anchor with
  | .top_left =>
    (rect_origin,
     { x := rect_origin.x + rect.width, y := rect_origin.y + rect.height })
  | .bottom_left =>
    ({ x := rect_origin.x, y := rect_origin.y - rect.height },
     { x := rect_origin.x + rect.width, y := rect_origin.y })
  | .center =>
    ({ x := rect_origin.x - Int.tdiv rect.width 2, y := rect_origin.y - Int.tdiv rect.height 2 },
     { x := rect_origin.x + Int.tdiv rect.width 2, y := rect_origin.y + Int.tdiv rect.height 2 })

/-- `check_circle_rect_collision` from part_010: clamp the circle center to
the rectangle box, then compare the squared distance to the squared radius
in `int32_t`. -/
def check_circle_rect_collision (circle_obj rect_obj : PhysicsObject) : Bool :=
  let circle := circle_shape_data circle_obj.visual
  let rect := rect_shape_data rect_obj.visual
  let rect_origin := shape_origin rect_obj.visual
  let corners := rect_corners rect_origin rect
  let top_left := corners.1
  let bottom_right := corners.2
  let circle_center := shape_origin circle_obj.visual
  let closest_x :=
    if circle_center.x < top_left.x then top_left.x
    else if circle_center.x > bottom_right.x then bottom_right.x
    else circle_center.x
  let closest_y :=
    if circle_center.y < top_left.y then top_left.y
    else if circle_center.y > bottom_right.y then bottom_right.y
    else circle_center.y
  let dx := toInt16 (circle_center.x - closest_x)
  let dy := toInt16 (circle_center.y - closest_y)
  let distance_squared := toInt32 (dx * dx + dy * dy)
  let radius_squared := toInt32 (circle.radius * circle.radius)
  decide (distance_squared ≤ radius_squared)

/-- `check_rect_rect_collision` from part_010: AABB separating-axis test on
the resolved corners. -/
def check_rect_rect_collision (objA objB : PhysicsObject) : Bool :=
  let rectA := rect_shape_data objA.visual
  let rectB := rect_shape_data objB.visual
  let origin1 := shape_origin objA.visual
  let origin2 := shape_origin objB.visual
  let cornersA := rect_corners origin1 rectA
  let top_leftA := cornersA.1
  let bottom_rightA := cornersA.2
  let cornersB := rect_corners origin2 rectB
  let top_leftB := cornersB.1
  let bottom_rightB := cornersB.2
  decide (¬ (bottom_rightA.x < top_leftB.x ∨ top_leftA.x > bottom_rightB.x ∨
             bottom_rightA.y < top_leftB.y ∨ top_leftA.y > bottom_rightB.y))

/-- `check_collision` from part_010: NULL / absent-shape / disabled guards,
shape-pair dispatch, then both callbacks on contact (A's first, B's second
with A's already-mutated state, as the C call sequence does). -/
def check_collision (pA pB : Option PhysicsObject) : CollisionOutcome :=
  match pA, pB with
  | none, _ => { collision := false, objA := pA, objB := pB, invokedA := false, invokedB := false }
  | _, none => { collision := false, objA := pA, objB := pB, invokedA := false, invokedB := false }
  | some objA, some objB =>
    if objA.visual = none ∨ objB.visual = none then
      { collision := false, objA := pA, objB := pB, invokedA := false, invokedB := false }
    else if ¬ objA.collision_enabled ∨ ¬ objB.collision_enabled then
      { collision := false, objA := pA, objB := pB, invokedA := false, invokedB := false }
    else
      let a_type := get_shape_type objA.visual
      let b_type := get_shape_type objB.visual
      let collision :=
        if a_type = .circle ∧ b_type = .circle then
          check_circle_circle_collision objA objB
        else if a_type = .circle ∧ b_type = .rectangle then
          check_circle_rect_collision objA objB
        else if a_type = .rectangle ∧ b_type = .circle then
          check_circle_rect_collision objB objA
        else if a_type = .rectangle ∧ b_type = .rectangle then
          check_rect_rect_collision objA objB
        else
          false
      if collision then
        let objA' :=
          match objA.on_collision with
          | some cb => run_callback cb objA objB
          | none => objA
        let objB' :=
          match objB.on_collision with
          | some cb => run_callback cb objB objA'
          | none => objB
        { collision := true, objA := some objA', objB := some objB',
          invokedA := objA.on_collision.isSome, invokedB := objB.on_collision.isSome }
      else
        { collision := false, objA := some objA, objB := some objB,
          invokedA := false, invokedB := false }

end Part010

namespace Part011

/-- `check_circle_circle_collision` from the SH1106-era physics.c
(src/unnamed/part_011): all intermediates stored in `int16_t`. -/
def check_circle_circle_collision (obj1 obj2 : PhysicsObject) : Bool :=
  let c1 := circle_shape_data obj1.visual
  let c2 := circle_shape_data obj2.visual
  let dx := toInt16 (obj1.position.x - obj2.position.x)
  let dy := toInt16 (obj1.position.y - obj2.position.y)
  let distance_squared := toInt16 (dx * dx + dy * dy)
  let radius_sum := toInt16 (c1.radius + c2.radius)
  let radius_sum_squared := toInt16 (radius_sum * radius_sum)
  decide (distance_squared ≤ radius_sum_squared)

/-- Corner resolution in part_011: same switch as part_010, but the corners
are stored into the SH1106 `Point`, whose fields are `uint8_t`. -/
def rect_corners_u8 (rect_origin : Point) (r : RectangleData) : Point × Point :=
  match r.anchor with
  | .top_left =>
    (rect_origin,
     { x := toUInt8 (rect_origin.x + r.width), y := toUInt8 (rect_origin.y + r.height) })
  | .bottom_left =>
    ({ x := rect_origin.x, y := toUInt8 (rect_origin.y - r.height) },
     { x := toUInt8 (rect_origin.x + r.width), y := rect_origin.y })
  | .center =>
    ({ x := toUInt8 (rect_origin.x - Int.tdiv r.width 2),
       y := toUInt8 (rect_origin.y - Int.tdiv r.height 2) },
     { x := toUInt8 (rect_origin.x + Int.tdiv r.width 2),
       y := toUInt8 (rect_origin.y + Int.tdiv r.height 2) })

/-- `check_circle_rect_collision` from part_011 (`int16_t` intermediates). -/
def check_circle_rect_collision (circle_obj rect_obj : PhysicsObject) : Bool :=
  let c := circle_shape_data circle_obj.visual
  let r := rect_shape_data rect_obj.visual
  let rect_origin := shape_origin rect_obj.visual
  let corners := rect_corners_u8 rect_origin r
  let tl := corners.1
  let br := corners.2
  let circle_center := shape_origin circle_obj.visual
  let closest_x :=
    if circle_center.x < tl.x then tl.x
    else if circle_center.x > br.x then br.x
    else circle_center.x
  let closest_y :=
    if circle_center.y < tl.y then tl.y
    else if circle_center.y > br.y then br.y
    else circle_center.y
  let dx := toInt16 (circle_center.x - closest_x)
  let dy := toInt16 (circle_center.y - closest_y)
  let distance_squared := toInt16 (dx * dx + dy * dy)
  decide (distance_squared ≤ c.radius * c.radius)

/-- `check_rect_rect_collision` from part_011. -/
def check_rect_rect_collision (obj1 obj2 : PhysicsObject) : Bool :=
  let r1 := rect_shape_data obj1.visual
  let r2 := rect_shape_data obj2.visual
  let origin1 := shape_origin obj1.visual
  let origin2 := shape_origin obj2.visual
  let corners1 := rect_corners_u8 origin1 r1
  let tl1 := corners1.1
  let br1 := corners1.2
  let corners2 := rect_corners_u8 origin2 r2
  let tl2 := corners2.1
  let br2 := corners2.2
  decide (¬ (br1.x < tl2.x ∨ tl1.x > br2.x ∨ br1.y < tl2.y ∨ tl1.y > br2.y))

/-- `check_physics_collision_objects` from part_011: guards, dispatch and
callback sequence identical in structure to part_010's `check_collision`. -/
def check_physics_collision_objects (p1 p2 : Option PhysicsObject) : CollisionOutcome :=
  match p1, p2 with
  | none, _ => { collision := false, objA := p1, objB := p2, invokedA := false, invokedB := false }
  | _, none => { collision := false, objA := p1, objB := p2, invokedA := false, invokedB := false }
  | some obj1, some obj2 =>
    if obj1.visual = none ∨ obj2.visual = none then
      { collision := false, objA := p1, objB := p2, invokedA := false, invokedB := false }
    else if ¬ obj1.collision_enabled ∨ ¬ obj2.collision_enabled then
      { collision := false, objA := p1, objB := p2, invokedA := false, invokedB := false }
    else
      let type1 := get_shape_type obj1.visual
      let type2 := get_shape_type obj2.visual
      let collision :=
        if type1 = .circle ∧ type2 = .circle then
          check_circle_circle_collision obj1 obj2
        else if type1 = .circle ∧ type2 = .rectangle then
          check_circle_rect_collision obj1 obj2
        else if type1 = .rectangle ∧ type2 = .circle then
          check_circle_rect_collision obj2 obj1
        else if type1 = .rectangle ∧ type2 = .rectangle then
          check_rect_rect_collision obj1 obj2
        else
          false
      if collision then
        let obj1' :=
          match obj1.on_collision with
          | some cb => run_callback cb obj1 obj2
          | none => obj1
        let obj2' :=
          match obj2.on_collision with
          | some cb => run_callback cb obj2 obj1'
          | none => obj2
        { collision := true, objA := some obj1', objB := some obj2',
          invokedA := obj1.on_collision.isSome, invokedB := obj2.on_collision.isSome }
      else
        { collision := false, objA := some obj1, objB := some obj2,
          invokedA := false, invokedB := false }

end Part011

/-! ## Physics simulation helpers (physics.c, identical in both revisions) -/

/-- `move` from physics.c: add the delta to the position and synchronize the
visual shape origin. -/
def move (obj : PhysicsObject) (delta : Vector2D) : PhysicsObject :=
  let p : Point := { x := obj.position.x + delta.x, y := obj.position.y + delta.y }
  { obj with
    position := p,
    visual :=
      match obj.visual with
      | none => none
      | some s => some { s with origin := p } }

/-- `update` from physics.c: apply the velocity (acceleration is an explicit
reserved no-op in the source). -/
def update_physics (obj : PhysicsObject) : PhysicsObject :=
  move obj obj.velocity

/-- `set_physics_position` (non-NULL case): set the position and synchronize
the visual origin. -/
def set_physics_position (obj : PhysicsObject) (new_position : Point) : PhysicsObject :=
  { obj with
    position := new_position,
    visual :=
      match obj.visual with
      | none => none
      | some s => some { s with origin := new_position } }

/-- `set_physics_velocity` (non-NULL case). -/
def set_physics_velocity (obj : PhysicsObject) (new_velocity : Vector2D) : PhysicsObject :=
  { obj with velocity := new_velocity }

/-- `init_physics` from part_010: create the shape at the given position and
enable collisions. -/
def init_physics (position : Point) (velocity : Vector2D) (data : ShapeData)
    (callback : Option CollisionCallback) : PhysicsObject :=
  { position := position
    velocity := velocity
    acceleration := { x := 0, y := 0 }
    visual := some { origin := position, data := data }
    on_collision := callback
    collision_enabled := true }

/-! ## Game configuration macros (game_controller.h, values also listed in
the repository README) -/

def SCREEN_WIDTH : Int := 128
def SCREEN_HEIGHT : Int := 64
def WALL_THICKNESS : Int := 2
def PADDLE_LENGTH : Int := 20
def PADDLE_WIDTH : Int := 2
def PADDLE_MARGIN : Int := 3
def BALL_RADIUS : Int := 3
def JOYSTICK_DEADZONE : Int := 10
def MAX_PADDLE_SPEED : Int := 8
def PADDLE_SPEED_BOOST_MULTIPLIER : Int := 2
def PADDLE_COLLISION_COOLDOWN_FRAMES : Int := 8
def PADDLE_DEFLECTION_LOW : Int := 512
def PADDLE_DEFLECTION_MID : Int := 1536
def PADDLE_SPEED_LOW : Int := 2
def PADDLE_SPEED_MID : Int := 4
def PADDLE_SPEED_HIGH : Int := 8
def PADDLE_ACCELERATION : Int := 2

/-! ## Game controller (game_controller.c) -/

/-- `GameState` from game_controller.h. -/
inductive GameState where
  | title
  | ball_at_rest
  | ball_moving
  | paused
  | countdown
  | game_over
deriving DecidableEq

/-- A homogeneous quadruple, for the `walls[4]`, `paddles[4]` and
`paddle_collision_cooldown[4]` arrays. -/
structure Quad (α : Type) where
  q0 : α
  q1 : α
  q2 : α
  q3 : α
deriving DecidableEq

/-- Array indexing for `Quad`. -/
def Quad.get {α : Type} (q : Quad α) : Fin 4 → α
  | ⟨0, _⟩ => q.q0
  | ⟨1, _⟩ => q.q1
  | ⟨2, _⟩ => q.q2
  | ⟨3, _⟩ => q.q3

/-- Apply a function to each component. -/
def Quad.map {α β : Type} (f : α → β) (q : Quad α) : Quad β :=
  { q0 := f q.q0, q1 := f q.q1, q2 := f q.q2, q3 := f q.q3 }

/-- One frame's worth of polled hardware input: the cached raw 12-bit ADC
samples (0–4095) and the two debounced button levels, as reported by
input_controller.c. -/
structure FrameInput where
  raw_x : Int
  raw_y : Int
  button1 : Bool
  button2 : Bool
deriving DecidableEq

/-- `GameController` from game_controller.h.  The embedded `InputController`
(pure hardware polling) is replaced by the per-frame `FrameInput`. -/
structure GameController where
  walls : Quad PhysicsObject
  paddles : Quad PhysicsObject
  h_paddle_y_top : Int
  h_paddle_y_bottom : Int
  h_paddle_min_x : Int
  h_paddle_max_x : Int
  v_paddle_x_left : Int
  v_paddle_x_right : Int
  v_paddle_min_y : Int
  v_paddle_max_y : Int
  state : GameState
  score : Int
  final_score : Int
  paddle_collision_cooldown : Quad Int
  paddle_current_velocity_x : Int
  paddle_current_velocity_y : Int
  paused_ball_velocity : Vector2D
  countdown_timer : Int
  button1_prev_state : Bool
  ball : PhysicsObject
deriving DecidableEq

/-- The 8 predefined `DIRECTIONS` vectors of game_controller.c. -/
def DIRECTIONS : List Vector2D :=
  [{ x := 2, y := 1 }, { x := 1, y := 2 }, { x := -1, y := 2 }, { x := -2, y := 1 },
   { x := -2, y := -1 }, { x := -1, y := -2 }, { x := 1, y := -2 }, { x := 2, y := -1 }]

/-- `generate_random_direction`: mask the seed to 0–7 (`seed & 0x07` on a
`uint16_t` seed is `seed % 8`) and index the direction table. -/
def generate_random_direction (seed : Int) : Vector2D :=
  DIRECTIONS.getD (seed % 8).toNat { x := 0, y := 0 }

/-- `normalize_adc` from game_controller.c: signed delta from the 2048
center, with values strictly inside the `JOYSTICK_DEADZONE` band collapsed
to zero. -/
def normalize_adc (raw_value : Int) : Int :=
  let delta := toInt16 (toInt16 raw_value - 2048)
  if delta < 0 ∧ delta > -JOYSTICK_DEADZONE then 0
  else if delta ≥ 0 ∧ delta < JOYSTICK_DEADZONE then 0
  else delta

/-- `map_to_velocity` from game_controller.c: piecewise-linear curve with
breakpoints at `PADDLE_DEFLECTION_LOW`/`MID`, clamped to
`MAX_PADDLE_SPEED`, sign restored at the end (`int8_t` result). -/
def map_to_velocity (normalized_value : Int) : Int :=
  let sign : Int := if normalized_value < 0 then -1 else 1
  let abs_value := toInt16 (if normalized_value < 0 then -normalized_value else normalized_value)
  let velocity :=
    if abs_value < PADDLE_DEFLECTION_LOW then
      Int.tdiv (abs_value * PADDLE_SPEED_LOW) PADDLE_DEFLECTION_LOW
    else if abs_value < PADDLE_DEFLECTION_MID then
      PADDLE_SPEED_LOW +
        Int.tdiv ((abs_value - PADDLE_DEFLECTION_LOW) * (PADDLE_SPEED_MID - PADDLE_SPEED_LOW))
          (PADDLE_DEFLECTION_MID - PADDLE_DEFLECTION_LOW)
    else
      PADDLE_SPEED_MID +
        Int.tdiv ((abs_value - PADDLE_DEFLECTION_MID) * (PADDLE_SPEED_HIGH - PADDLE_SPEED_MID))
          (2048 - PADDLE_DEFLECTION_MID)
  let velocity := if velocity > MAX_PADDLE_SPEED then MAX_PADDLE_SPEED else velocity
  toInt8 (velocity * sign)

/-- `smooth_accelerate` from game_controller.c: move `current` toward
`target` by `PADDLE_ACCELERATION` without overshooting (`int8_t`
arithmetic). -/
def smooth_accelerate (current target : Int) : Int :=
  if current < target then
    let current := toInt8 (current + PADDLE_ACCELERATION)
    if current > target then target else current
  else if current > target then
    let current := toInt8 (current - PADDLE_ACCELERATION)
    if current < target then target else current
  else current

/-- One axis of the input-to-velocity stage of `update_game_controller`
(lines 273–295): axis inversion, normalization, curve mapping, then the
boost multiplication and ±127 clamp when button 2 is held. -/
def compute_target_velocity (raw : Int) (boost : Bool) : Int :=
  let norm := toInt16 (-(normalize_adc raw))
  let target := map_to_velocity norm
  if boost then
    let target := toInt8 (target * PADDLE_SPEED_BOOST_MULTIPLIER)
    let target := if target > 127 then 127 else target
    if target < -127 then -127 else target
  else target

/-- `clamp_paddle` from game_controller.c: clamp one coordinate of the
paddle position to the precomputed bounds. -/
def clamp_paddle (paddle : PhysicsObject) (min_coord max_coord : Int)
    (horizontal : Bool) : PhysicsObject :=
  let pos := paddle.position
  let pos :=
    if horizontal then
      let x := if pos.x < min_coord then min_coord else pos.x
      let x := if x > max_coord then max_coord else x
      { pos with x := x }
    else
      let y := if pos.y < min_coord then min_coord else pos.y
      let y := if y > max_coord then max_coord else y
      { pos with y := y }
  set_physics_position paddle pos

/-- The unconditional paddle part of `update_game_controller`
(game_controller.c lines 272–317): target velocities from the joystick,
smooth acceleration, velocity assignment to the two paddle pairs, position
update and bounds clamping.  This runs every frame in every state. -/
def paddle_input_phase (ctrl : GameController) (inp : FrameInput) : GameController :=
  let target_velocity_x := compute_target_velocity inp.raw_x inp.button2
  let target_velocity_y := compute_target_velocity inp.raw_y inp.button2
  let pvx := smooth_accelerate ctrl.paddle_current_velocity_x target_velocity_x
  let pvy := smooth_accelerate ctrl.paddle_current_velocity_y target_velocity_y
  let p0 := clamp_paddle (update_physics (set_physics_velocity ctrl.paddles.q0 { x := pvx, y := 0 }))
              ctrl.h_paddle_min_x ctrl.h_paddle_max_x true
  let p1 := clamp_paddle (update_physics (set_physics_velocity ctrl.paddles.q1 { x := pvx, y := 0 }))
              ctrl.h_paddle_min_x ctrl.h_paddle_max_x true
  let p2 := clamp_paddle (update_physics (set_physics_velocity ctrl.paddles.q2 { x := 0, y := pvy }))
              ctrl.v_paddle_min_y ctrl.v_paddle_max_y false
  let p3 := clamp_paddle (update_physics (set_physics_velocity ctrl.paddles.q3 { x := 0, y := pvy }))
              ctrl.v_paddle_min_y ctrl.v_paddle_max_y false
  { ctrl with
    paddle_current_velocity_x := pvx
    paddle_current_velocity_y := pvy
    paddles := { q0 := p0, q1 := p1, q2 := p2, q3 := p3 } }

/-- Result of one iteration of the ball-vs-paddle loop in the BallMoving
branch. -/
structure PaddleStepResult where
  ball : PhysicsObject
  paddle : PhysicsObject
  cooldown : Int
  score : Int
deriving DecidableEq

/-- One iteration of the ball-vs-paddle loop (game_controller.c lines
361–369): skip unless the paddle's cooldown is zero; on contact increment
the score (`uint16_t`), arm the cooldown, and let the collision callbacks
(ball bounce) run. -/
def paddle_collision_step (ball paddle : PhysicsObject) (cooldown score : Int) :
    PaddleStepResult :=
  if cooldown = 0 then
    let out := Part010.check_collision (some ball) (some paddle)
    if out.collision then
      { ball := out.objA.getD ball
        paddle := out.objB.getD paddle
        cooldown := PADDLE_COLLISION_COOLDOWN_FRAMES
        score := toUInt16 (score + 1) }
    else
      { ball := ball, paddle := paddle, cooldown := cooldown, score := score }
  else
    { ball := ball, paddle := paddle, cooldown := cooldown, score := score }

/-- Result of the ball-vs-wall loop of the BallMoving branch. -/
structure WallPhaseResult where
  ball : PhysicsObject
  final_score : Int
  state : GameState
deriving DecidableEq

/-- The ball-vs-wall loop (game_controller.c lines 372–385): the first wall
contact freezes the ball (after its bounce callback ran), records the final
score and transitions to GameOver; the loop breaks there.  The screen-flash
busy-wait is purely visual and not modelled. -/
def wall_collision_phase (ball : PhysicsObject) (walls : Quad PhysicsObject)
    (score final_score : Int) : WallPhaseResult :=
  let out0 := Part010.check_collision (some ball) (some walls.q0)
  if out0.collision then
    { ball := set_physics_velocity (out0.objA.getD ball) { x := 0, y := 0 },
      final_score := score, state := .game_over }
  else
    let out1 := Part010.check_collision (some ball) (some walls.q1)
    if out1.collision then
      { ball := set_physics_velocity (out1.objA.getD ball) { x := 0, y := 0 },
        final_score := score, state := .game_over }
    else
      let out2 := Part010.check_collision (some ball) (some walls.q2)
      if out2.collision then
        { ball := set_physics_velocity (out2.objA.getD ball) { x := 0, y := 0 },
          final_score := score, state := .game_over }
      else
        let out3 := Part010.check_collision (some ball) (some walls.q3)
        if out3.collision then
          { ball := set_physics_velocity (out3.objA.getD ball) { x := 0, y := 0 },
            final_score := score, state := .game_over }
        else
          { ball := ball, final_score := final_score, state := .ball_moving }

/-- The state-machine switch of `update_game_controller` (lines 324–417),
operating on the controller after the paddle input phase. -/
def state_machine_phase (ctrl : GameController) (inp : FrameInput) : GameController :=
  let button1_pressed := inp.button1 && !ctrl.button1_prev_state
  match ctrl.state with
  | .title =>
    if button1_pressed then
      { ctrl with
        score := 0
        ball := set_physics_velocity
                  (set_physics_position ctrl.ball
                    { x := Int.tdiv SCREEN_WIDTH 2, y := Int.tdiv SCREEN_HEIGHT 2 })
                  { x := 0, y := 0 }
        paddle_collision_cooldown := { q0 := 0, q1 := 0, q2 := 0, q3 := 0 }
        state := .ball_at_rest }
    else ctrl
  | .ball_at_rest =>
    if button1_pressed then
      { ctrl with
        ball := set_physics_velocity ctrl.ball (generate_random_direction inp.raw_x)
        state := .ball_moving }
    else ctrl
  | .ball_moving =>
    if button1_pressed then
      { ctrl with
        paused_ball_velocity := ctrl.ball.velocity
        ball := set_physics_velocity ctrl.ball { x := 0, y := 0 }
        state := .paused }
    else
      let ball := update_physics ctrl.ball
      let r0 := paddle_collision_step ball ctrl.paddles.q0
                  ctrl.paddle_collision_cooldown.q0 ctrl.score
      let r1 := paddle_collision_step r0.ball ctrl.paddles.q1
                  ctrl.paddle_collision_cooldown.q1 r0.score
      let r2 := paddle_collision_step r1.ball ctrl.paddles.q2
                  ctrl.paddle_collision_cooldown.q2 r1.score
      let r3 := paddle_collision_step r2.ball ctrl.paddles.q3
                  ctrl.paddle_collision_cooldown.q3 r2.score
      let w := wall_collision_phase r3.ball ctrl.walls r3.score ctrl.final_score
      { ctrl with
        ball := w.ball
        paddles := { q0 := r0.paddle, q1 := r1.paddle, q2 := r2.paddle, q3 := r3.paddle }
        paddle_collision_cooldown :=
          { q0 := r0.cooldown, q1 := r1.cooldown, q2 := r2.cooldown, q3 := r3.cooldown }
        score := r3.score
        final_score := w.final_score
        state := w.state }
  | .paused =>
    if button1_pressed then
      { ctrl with countdown_timer := 36, state := .countdown }
    else ctrl
  | .countdown =>
    let t := if ctrl.countdown_timer > 0 then ctrl.countdown_timer - 1 else ctrl.countdown_timer
    if t = 0 then
      { ctrl with
        countdown_timer := t
        ball := set_physics_velocity ctrl.ball ctrl.paused_ball_velocity
        state := .ball_moving }
    else
      { ctrl with countdown_timer := t }
  | .game_over =>
    if button1_pressed then { ctrl with state := .title } else ctrl

/-- `update_game_controller` from game_controller.c: the unconditional
paddle input phase, the state machine, the `button1_prev_state` update, and
the unconditional cooldown decrement. -/
def update_game_controller (ctrl : GameController) (inp : FrameInput) : GameController :=
  let ctrl := paddle_input_phase ctrl inp
  let ctrl := state_machine_phase ctrl inp
  let ctrl := { ctrl with button1_prev_state := inp.button1 }
  { ctrl with
    paddle_collision_cooldown :=
      ctrl.paddle_collision_cooldown.map (fun c => if c > 0 then c - 1 else c) }

/-- Iterate `update_game_controller` over a list of frame inputs. -/
def run_frames (ctrl : GameController) (inputs : List FrameInput) : GameController :=
  inputs.foldl update_game_controller ctrl

/-- `init_game_controller` from game_controller.c: the derived paddle
geometry, the four walls, the four paddles, the ball, and the initial
scalar state. -/
def init_game_controller : GameController :=
  let h_paddle_y_top := WALL_THICKNESS + PADDLE_MARGIN + Int.tdiv PADDLE_WIDTH 2
  let h_paddle_y_bottom := SCREEN_HEIGHT - 1 - WALL_THICKNESS - PADDLE_MARGIN - Int.tdiv PADDLE_WIDTH 2
  let v_paddle_x_left := WALL_THICKNESS + PADDLE_MARGIN + Int.tdiv PADDLE_WIDTH 2
  let v_paddle_x_right := SCREEN_WIDTH - 1 - WALL_THICKNESS - PADDLE_MARGIN - Int.tdiv PADDLE_WIDTH 2
  { walls :=
      { q0 := init_physics { x := 0, y := 0 } { x := 0, y := 0 }
                (.rect { anchor := .top_left, width := SCREEN_WIDTH, height := WALL_THICKNESS })
                (some .cb_none)
        q1 := init_physics { x := 0, y := SCREEN_HEIGHT - WALL_THICKNESS } { x := 0, y := 0 }
                (.rect { anchor := .top_left, width := SCREEN_WIDTH, height := WALL_THICKNESS })
                (some .cb_none)
        q2 := init_physics { x := 0, y := 0 } { x := 0, y := 0 }
                (.rect { anchor := .top_left, width := WALL_THICKNESS, height := SCREEN_HEIGHT })
                (some .cb_none)
        q3 := init_physics { x := SCREEN_WIDTH - WALL_THICKNESS, y := 0 } { x := 0, y := 0 }
                (.rect { anchor := .top_left, width := WALL_THICKNESS, height := SCREEN_HEIGHT })
                (some .cb_none) }
    paddles :=
      { q0 := init_physics { x := Int.tdiv SCREEN_WIDTH 2, y := h_paddle_y_top } { x := 0, y := 0 }
                (.rect { anchor := .center, width := PADDLE_LENGTH, height := PADDLE_WIDTH })
                (some .cb_none)
        q1 := init_physics { x := Int.tdiv SCREEN_WIDTH 2, y := h_paddle_y_bottom } { x := 0, y := 0 }
                (.rect { anchor := .center, width := PADDLE_LENGTH, height := PADDLE_WIDTH })
                (some .cb_none)
        q2 := init_physics { x := v_paddle_x_left, y := Int.tdiv SCREEN_HEIGHT 2 } { x := 0, y := 0 }
                (.rect { anchor := .center, width := PADDLE_WIDTH, height := PADDLE_LENGTH })
                (some .cb_none)
        q3 := init_physics { x := v_paddle_x_right, y := Int.tdiv SCREEN_HEIGHT 2 } { x := 0, y := 0 }
                (.rect { anchor := .center, width := PADDLE_WIDTH, height := PADDLE_LENGTH })
                (some .cb_none) }
    h_paddle_y_top := h_paddle_y_top
    h_paddle_y_bottom := h_paddle_y_bottom
    h_paddle_min_x := v_paddle_x_left + Int.tdiv PADDLE_WIDTH 2 + Int.tdiv PADDLE_LENGTH 2
    h_paddle_max_x := v_paddle_x_right - Int.tdiv PADDLE_WIDTH 2 - Int.tdiv PADDLE_LENGTH 2
    v_paddle_x_left := v_paddle_x_left
    v_paddle_x_right := v_paddle_x_right
    v_paddle_min_y := h_paddle_y_top + Int.tdiv PADDLE_WIDTH 2 + Int.tdiv PADDLE_LENGTH 2
    v_paddle_max_y := h_paddle_y_bottom - Int.tdiv PADDLE_WIDTH 2 - Int.tdiv PADDLE_LENGTH 2
    state := .title
    score := 0
    final_score := 0
    paddle_collision_cooldown := { q0 := 0, q1 := 0, q2 := 0, q3 := 0 }
    paddle_current_velocity_x := 0
    paddle_current_velocity_y := 0
    paused_ball_velocity := { x := 0, y := 0 }
    countdown_timer := 0
    button1_prev_state := false
    ball := init_physics { x := Int.tdiv SCREEN_WIDTH 2, y := Int.tdiv SCREEN_HEIGHT 2 }
              { x := 0, y := 0 } (.circle { radius := BALL_RADIUS }) (some .cb_bounce) }

/-! ## Instances and predicates used by the claim statements -/

/-- A collision-enabled circle physics object at `(x, y)` with radius `r`
(no callback), as built by `init_physics`. -/
def mk_circle_obj (x y r : Int) : PhysicsObject :=
  init_physics { x := x, y := y } { x := 0, y := 0 } (.circle { radius := r }) none

/-- A collision-enabled rectangle physics object (no callback). -/
def mk_rect_obj (x y : Int) (anchor : RectangleAnchor) (w h : Int) : PhysicsObject :=
  init_physics { x := x, y := y } { x := 0, y := 0 }
    (.rect { anchor := anchor, width := w, height := h }) none

/-- The exact mathematical circle-contact predicate of the specification:
squared center distance at most squared radius sum. -/
def circles_contact_exact (x1 y1 r1 x2 y2 r2 : Int) : Prop :=
  (x1 - x2) * (x1 - x2) + (y1 - y2) * (y1 - y2) ≤ (r1 + r2) * (r1 + r2)

instance circles_contact_exact.instDecidable (x1 y1 r1 x2 y2 r2 : Int) :
    Decidable (circles_contact_exact x1 y1 r1 x2 y2 r2) := by
  unfold circles_contact_exact; infer_instance

/-- Closed-interval overlap of two resolved rectangles on both axes, as the
specification words it: no contact only when one rectangle's max is
strictly below the other's min on some axis. -/
def rects_overlap_closed (tlA brA tlB brB : Point) : Prop :=
  tlB.x ≤ brA.x ∧ tlA.x ≤ brB.x ∧ tlB.y ≤ brA.y ∧ tlA.y ≤ brB.y

instance rects_overlap_closed.instDecidable (tlA brA tlB brB : Point) :
    Decidable (rects_overlap_closed tlA brA tlB brB) := by
  unfold rects_overlap_closed; infer_instance

/-- Conclusion of the circle–circle exactness claim at one input: both
revisions agree with the exact predicate on their display scale, and the
axis-aligned boundary distances `r1+r2` / `r1+r2+1` behave as contact /
no-contact. -/
def circle_circle_exact_property (x1 y1 r1 x2 y2 r2 : Int) : Prop :=
  (Part010.check_circle_circle_collision (mk_circle_obj x1 y1 r1) (mk_circle_obj x2 y2 r2) =
     decide (circles_contact_exact x1 y1 r1 x2 y2 r2)) ∧
  (x1 ≤ 127 → x2 ≤ 127 → y1 ≤ 63 → y2 ≤ 63 → r1 + r2 ≤ 143 →
     Part011.check_circle_circle_collision (mk_circle_obj x1 y1 r1) (mk_circle_obj x2 y2 r2) =
       decide (circles_contact_exact x1 y1 r1 x2 y2 r2)) ∧
  (y1 = y2 → x1 - x2 = r1 + r2 →
     Part010.check_circle_circle_collision (mk_circle_obj x1 y1 r1) (mk_circle_obj x2 y2 r2) = true) ∧
  (y1 = y2 → x1 - x2 = r1 + r2 + 1 →
     Part010.check_circle_circle_collision (mk_circle_obj x1 y1 r1) (mk_circle_obj x2 y2 r2) = false)

/-- Returned-contact and callback-invocation observations of both collision
dispatchers at one input pair: everything reports "no contact, nothing
invoked". -/
def collision_guard_property (pA pB : Option PhysicsObject) : Prop :=
  (Part010.check_collision pA pB).collision = false ∧
  (Part010.check_collision pA pB).invokedA = false ∧
  (Part010.check_collision pA pB).invokedB = false ∧
  (Part011.check_physics_collision_objects pA pB).collision = false ∧
  (Part011.check_physics_collision_objects pA pB).invokedA = false ∧
  (Part011.check_physics_collision_objects pA pB).invokedB = false

/-- Per-frame cooldown behaviour of one paddle index: never negative; a
nonzero cooldown decrements by exactly 1, except that the Title→BallAtRest
button edge resets it to 0; a zero cooldown either stays 0 or is armed to
`PADDLE_COLLISION_COOLDOWN_FRAMES` by a hit and already decremented once at
the end of the same frame. -/
def cooldown_frame_property (gc : GameController) (inp : FrameInput) (i : Fin 4) : Prop :=
  (0 ≤ (update_game_controller gc inp).paddle_collision_cooldown.get i) ∧
  (0 < gc.paddle_collision_cooldown.get i →
    ((update_game_controller gc inp).paddle_collision_cooldown.get i =
        gc.paddle_collision_cooldown.get i - 1 ∨
     (gc.state = .title ∧ inp.button1 = true ∧ gc.button1_prev_state = false ∧
        (update_game_controller gc inp).paddle_collision_cooldown.get i = 0))) ∧
  (gc.paddle_collision_cooldown.get i = 0 →
    ((update_game_controller gc inp).paddle_collision_cooldown.get i = 0 ∨
     (update_game_controller gc inp).paddle_collision_cooldown.get i =
        PADDLE_COLLISION_COOLDOWN_FRAMES - 1))

/-- Conclusion of the pause/countdown scenario: the button frame arms the
36-frame countdown; any 36 further frames end in BallMoving with the saved
ball velocity restored; fewer than 36 further frames leave it counting. -/
def paused_resume_property (gc : GameController) (inp : FrameInput) : Prop :=
  (update_game_controller gc inp).state = .countdown ∧
  (update_game_controller gc inp).countdown_timer = 36 ∧
  (∀ ins : List FrameInput, ins.length = 36 →
    (run_frames (update_game_controller gc inp) ins).state = .ball_moving ∧
    (run_frames (update_game_controller gc inp) ins).ball.velocity = gc.paused_ball_velocity) ∧
  (∀ ins : List FrameInput, ins.length < 36 →
    (run_frames (update_game_controller gc inp) ins).state = .countdown)

/-- The value of the piecewise-linear joystick curve on a nonnegative
deflection magnitude in [0, 2048] (on that domain C division agrees with
Euclidean division, and the `MAX_PADDLE_SPEED` clamp never fires). -/
def speed_curve (a : Int) : Int :=
  if a < PADDLE_DEFLECTION_LOW then a * PADDLE_SPEED_LOW / PADDLE_DEFLECTION_LOW
  else if a < PADDLE_DEFLECTION_MID then
    PADDLE_SPEED_LOW + (a - PADDLE_DEFLECTION_LOW) * (PADDLE_SPEED_MID - PADDLE_SPEED_LOW) /
      (PADDLE_DEFLECTION_MID - PADDLE_DEFLECTION_LOW)
  else
    PADDLE_SPEED_MID + (a - PADDLE_DEFLECTION_MID) * (PADDLE_SPEED_HIGH - PADDLE_SPEED_MID) /
      (2048 - PADDLE_DEFLECTION_MID)

/-- Axis selection of the circle-case bounce: the axis with the larger
absolute positional delta between the two centers has its velocity
component negated (ties negate y); the other component is untouched. -/
def bounce_axis_property (self other : PhysicsObject) : Prop :=
  (abs_value_c (toInt16 (self.position.x - other.position.x)) >
     abs_value_c (toInt16 (self.position.y - other.position.y)) →
    (collision_bounce self other).velocity.x = toInt8 (-self.velocity.x) ∧
    (collision_bounce self other).velocity.y = self.velocity.y) ∧
  (abs_value_c (toInt16 (self.position.x - other.position.x)) ≤
     abs_value_c (toInt16 (self.position.y - other.position.y)) →
    (collision_bounce self other).velocity.x = self.velocity.x ∧
    (collision_bounce self other).velocity.y = toInt8 (-self.velocity.y))

/-- Concrete bounce counterexample: `self` approaching from the right of a
circular `other` (center delta 10 on x, 0 on y) with velocity (2, 1). -/
def cx_bounce_self : PhysicsObject := mk_circle_obj 10 0 3
def cx_bounce_self_moving : PhysicsObject :=
  set_physics_velocity cx_bounce_self { x := 2, y := 1 }
def cx_bounce_other : PhysicsObject := mk_circle_obj 0 0 3

/-- A frame input with the joystick pushed hard to one side and no buttons. -/
def cx_hard_left_input : FrameInput :=
  { raw_x := 0, raw_y := 2048, button1 := false, button2 := false }

/-- A centered-stick frame input with the primary button held. -/
def inp_center_press : FrameInput :=
  { raw_x := 2048, raw_y := 2048, button1 := true, button2 := false }

/-- A centered-stick frame input with no buttons. -/
def inp_center_idle : FrameInput :=
  { raw_x := 2048, raw_y := 2048, button1 := false, button2 := false }

/-- A Title-state controller carrying a partially elapsed (nonzero) paddle
cooldown, as left behind by a recent round. -/
def gc_title_cooldown3 : GameController :=
  { init_game_controller with paddle_collision_cooldown := { q0 := 3, q1 := 3, q2 := 3, q3 := 3 } }

/-- A Paused-state controller with a saved ball velocity of (2, 1). -/
def gc_paused_ex : GameController :=
  { init_game_controller with state := .paused, paused_ball_velocity := { x := 2, y := 1 } }

/-- A circle object with collisions disabled, placed so that it overlaps
`mk_circle_obj 10 10 5` geometrically. -/
def cx_disabled_circle : PhysicsObject :=
  { mk_circle_obj 10 10 5 with collision_enabled := false }

/-! ## Arithmetic facts about the truncating stores -/

theorem toInt16_eq_self (x : Int) (h1 : -32768 ≤ x) (h2 : x ≤ 32767) : toInt16 x = x := by
  unfold toInt16; omega

theorem toInt8_eq_self (x : Int) (h1 : -128 ≤ x) (h2 : x ≤ 127) : toInt8 x = x := by
  unfold toInt8; omega

theorem toInt32_eq_self (x : Int) (h1 : -2147483648 ≤ x) (h2 : x ≤ 2147483647) :
    toInt32 x = x := by
  unfold toInt32; omega

theorem toInt16_neg_cases (x : Int) :
    toInt16 (-x) = -toInt16 x ∨ (toInt16 x = -32768 ∧ toInt16 (-x) = -32768) := by
  unfold toInt16; omega

theorem toInt16_neg_sq (x : Int) :
    toInt16 (-x) * toInt16 (-x) = toInt16 x * toInt16 x := by
  rcases toInt16_neg_cases x with h | ⟨h1, h2⟩
  · rw [h]; ring
  · rw [h1, h2]

theorem sq_le_sq_of_abs_le (x c : Int) (h1 : -c ≤ x) (h2 : x ≤ c) : x * x ≤ c * c := by
  nlinarith

/-! ## Symmetry of the collision tests -/

theorem check_circle_circle_collision_symm (a b : PhysicsObject) :
    Part010.check_circle_circle_collision a b = Part010.check_circle_circle_collision b a := by
  unfold Part010.check_circle_circle_collision
  dsimp only
  have hx : toInt16 (b.position.x - a.position.x) * toInt16 (b.position.x - a.position.x) =
      toInt16 (a.position.x - b.position.x) * toInt16 (a.position.x - b.position.x) := by
    rw [show b.position.x - a.position.x = -(a.position.x - b.position.x) from by ring]
    exact toInt16_neg_sq _
  have hy : toInt16 (b.position.y - a.position.y) * toInt16 (b.position.y - a.position.y) =
      toInt16 (a.position.y - b.position.y) * toInt16 (a.position.y - b.position.y) := by
    rw [show b.position.y - a.position.y = -(a.position.y - b.position.y) from by ring]
    exact toInt16_neg_sq _
  rw [hx, hy, Int.add_comm ((circle_shape_data b.visual).radius)]

theorem check_rect_rect_collision_symm (a b : PhysicsObject) :
    Part010.check_rect_rect_collision a b = Part010.check_rect_rect_collision b a := by
  unfold Part010.check_rect_rect_collision
  refine decide_eq_decide.mpr ?_
  simp only [gt_iff_lt]
  tauto

/-- C4: for every pair of physics objects and every combination of
circle/rectangle shape kinds, `check_collision` reports the same contact
result in both argument orders. -/
theorem C4_check_collision_symmetric (a b : PhysicsObject) :
    (Part010.check_collision (some a) (some b)).collision =
    (Part010.check_collision (some b) (some a)).collision := by
  unfold Part010.check_collision
  dsimp only
  by_cases h1 : a.visual = none
  · simp [h1]
  by_cases h2 : b.visual = none
  · simp [h1, h2]
  simp only [h1, h2, or_self, false_or, or_false, if_false, if_true]
  by_cases e1 : a.collision_enabled
  · by_cases e2 : b.collision_enabled
    · simp only [e1, e2, not_true, or_self, if_false]
      cases hta : get_shape_type a.visual <;> cases htb : get_shape_type b.visual <;>
        simp only [hta, htb, reduceCtorEq, and_self, and_true, true_and, and_false, false_and,
          if_true, if_false, ite_true, ite_false]
      · rw [check_circle_circle_collision_symm a b]
        split <;> rfl
      · split <;> rfl
      · split <;> rfl
      · rw [check_rect_rect_collision_symm a b]
        split <;> rfl
    · simp [e1, e2]
  · simp [e1]

/-- C10: if either object pointer or either object's shape is absent, or
either object's collision-enabled flag is cleared, then both collision
dispatchers return no contact and invoke neither collision callback, no
matter the geometry. -/
theorem C10_collision_guards (pA pB : Option PhysicsObject)
    (h : pA = none ∨ pB = none ∨
         (∃ a, pA = some a ∧ (a.visual = none ∨ a.collision_enabled = false)) ∨
         (∃ b, pB = some b ∧ (b.visual = none ∨ b.collision_enabled = false))) :
    collision_guard_property pA pB := by
  unfold collision_guard_property Part010.check_collision Part011.check_physics_collision_objects
  rcases h with rfl | rfl | ⟨a, rfl, ha⟩ | ⟨b, rfl, hb⟩
  · cases pB <;> simp
  · cases pA <;> simp
  · cases pB with
    | none => simp
    | some b =>
      rcases ha with ha | ha
      · simp [ha]
      · dsimp only
        split_ifs <;> simp_all
  · cases pA with
    | none => simp
    | some a =>
      rcases hb with hb | hb
      · simp [hb]
      · dsimp only
        split_ifs <;> simp_all

theorem C10_collision_guards_witness :
    ((some cx_disabled_circle : Option PhysicsObject) = none ∨
     (some (mk_circle_obj 10 10 5) : Option PhysicsObject) = none ∨
     (∃ a, (some cx_disabled_circle : Option PhysicsObject) = some a ∧
        (a.visual = none ∨ a.collision_enabled = false)) ∨
     (∃ b, (some (mk_circle_obj 10 10 5) : Option PhysicsObject) = some b ∧
        (b.visual = none ∨ b.collision_enabled = false))) ∧
    collision_guard_property (some cx_disabled_circle) (some (mk_circle_obj 10 10 5)) :=
  ⟨Or.inr (Or.inr (Or.inl ⟨cx_disabled_circle, rfl, Or.inr rfl⟩)),
   C10_collision_guards _ _ (Or.inr (Or.inr (Or.inl ⟨cx_disabled_circle, rfl, Or.inr rfl⟩)))⟩

/-- C5: for every pair of rectangle objects the collision test resolves
both rectangles' anchor-relative corners and reports contact exactly when
the axis-aligned intervals overlap on both axes under closed-interval
comparison; in particular the rectangles `[0,10]×[0,10]` and
`[10,20]×[0,10]`, which touch at x = 10, are reported in contact. -/
theorem C5_rect_rect_closed_overlap (x1 y1 x2 y2 : Int) (a1 a2 : RectangleAnchor)
    (w1 h1 w2 h2 : Int) :
    (Part010.check_rect_rect_collision (mk_rect_obj x1 y1 a1 w1 h1) (mk_rect_obj x2 y2 a2 w2 h2) =
      decide (rects_overlap_closed
        (Part010.rect_corners { x := x1, y := y1 } { anchor := a1, width := w1, height := h1 }).1
        (Part010.rect_corners { x := x1, y := y1 } { anchor := a1, width := w1, height := h1 }).2
        (Part010.rect_corners { x := x2, y := y2 } { anchor := a2, width := w2, height := h2 }).1
        (Part010.rect_corners { x := x2, y := y2 } { anchor := a2, width := w2, height := h2 }).2)) ∧
    (Part010.check_rect_rect_collision (mk_rect_obj 0 0 .top_left 10 10)
       (mk_rect_obj 10 0 .top_left 10 10) = true) := by
  constructor
  · unfold Part010.check_rect_rect_collision mk_rect_obj init_physics
    dsimp only [rect_shape_data, shape_origin]
    refine decide_eq_decide.mpr ?_
    unfold rects_overlap_closed
    simp only [gt_iff_lt, not_or, not_lt]
  · decide

/-- C3: for circle pairs at display-scale coordinates the collision test
reports contact exactly when the squared center distance is at most the
squared radius sum — exactly (no overflow) in both physics revisions on
their respective display scales — and in particular an axis-aligned center
distance of `r1+r2` is contact while `r1+r2+1` is not. -/
theorem C3_circle_circle_exact (x1 y1 r1 x2 y2 r2 : Int)
    (hx1a : 0 ≤ x1) (hx1b : x1 ≤ 239) (hy1a : 0 ≤ y1) (hy1b : y1 ≤ 239)
    (hx2a : 0 ≤ x2) (hx2b : x2 ≤ 239) (hy2a : 0 ≤ y2) (hy2b : y2 ≤ 239)
    (hr1 : 0 ≤ r1) (hr2 : 0 ≤ r2) (hrs : r1 + r2 ≤ 340) :
    circle_circle_exact_property x1 y1 r1 x2 y2 r2 := by
  have hdx : toInt16 (x1 - x2) = x1 - x2 := toInt16_eq_self _ (by omega) (by omega)
  have hdy : toInt16 (y1 - y2) = y1 - y2 := toInt16_eq_self _ (by omega) (by omega)
  have hrr : toInt16 (r1 + r2) = r1 + r2 := toInt16_eq_self _ (by omega) (by omega)
  have hsx : (x1 - x2) * (x1 - x2) ≤ 239 * 239 := sq_le_sq_of_abs_le _ _ (by omega) (by omega)
  have hsy : (y1 - y2) * (y1 - y2) ≤ 239 * 239 := sq_le_sq_of_abs_le _ _ (by omega) (by omega)
  have hnx : 0 ≤ (x1 - x2) * (x1 - x2) := mul_self_nonneg _
  have hny : 0 ≤ (y1 - y2) * (y1 - y2) := mul_self_nonneg _
  have hsr : (r1 + r2) * (r1 + r2) ≤ 340 * 340 := sq_le_sq_of_abs_le _ _ (by omega) (by omega)
  have hnr : 0 ≤ (r1 + r2) * (r1 + r2) := mul_self_nonneg _
  have key010 : Part010.check_circle_circle_collision (mk_circle_obj x1 y1 r1)
      (mk_circle_obj x2 y2 r2) = decide (circles_contact_exact x1 y1 r1 x2 y2 r2) := by
    unfold Part010.check_circle_circle_collision mk_circle_obj init_physics
    dsimp only [circle_shape_data]
    rw [hdx, hdy, hrr]
    rw [toInt32_eq_self _ (by omega) (by omega), toInt32_eq_self _ (by omega) (by omega)]
    refine decide_eq_decide.mpr ?_
    unfold circles_contact_exact
    rfl
  refine ⟨key010, ?_, ?_, ?_⟩
  · intro h1 h2 h3 h4 h5
    have hsx' : (x1 - x2) * (x1 - x2) ≤ 127 * 127 := sq_le_sq_of_abs_le _ _ (by omega) (by omega)
    have hsy' : (y1 - y2) * (y1 - y2) ≤ 63 * 63 := sq_le_sq_of_abs_le _ _ (by omega) (by omega)
    have hsr' : (r1 + r2) * (r1 + r2) ≤ 143 * 143 := sq_le_sq_of_abs_le _ _ (by omega) (by omega)
    unfold Part011.check_circle_circle_collision mk_circle_obj init_physics
    dsimp only [circle_shape_data]
    rw [hdx, hdy, hrr]
    rw [toInt16_eq_self ((x1 - x2) * (x1 - x2) + (y1 - y2) * (y1 - y2)) (by omega) (by omega),
        toInt16_eq_self ((r1 + r2) * (r1 + r2)) (by omega) (by omega)]
    refine decide_eq_decide.mpr ?_
    unfold circles_contact_exact
    rfl
  · intro hy hx
    rw [key010]
    simp only [decide_eq_true_eq]
    unfold circles_contact_exact
    have h0 : (y1 - y2) * (y1 - y2) = 0 := by
      rw [show y1 - y2 = 0 from by omega]; ring
    have h1 : (x1 - x2) * (x1 - x2) = (r1 + r2) * (r1 + r2) := by rw [hx]
    omega
  · intro hy hx
    rw [key010]
    simp only [decide_eq_false_iff_not]
    unfold circles_contact_exact
    have h0 : (y1 - y2) * (y1 - y2) = 0 := by
      rw [show y1 - y2 = 0 from by omega]; ring
    have h1 : (x1 - x2) * (x1 - x2) = (r1 + r2 + 1) * (r1 + r2 + 1) := by rw [hx]
    nlinarith

theorem C3_circle_circle_exact_witness :
    ((0:Int) ≤ 10 ∧ (10:Int) ≤ 239 ∧ (0:Int) ≤ 5 ∧ (5:Int) ≤ 239 ∧
     (0:Int) ≤ 4 ∧ (4:Int) ≤ 239 ∧ (0:Int) ≤ 5 ∧ (5:Int) ≤ 239 ∧
     (0:Int) ≤ 3 ∧ (0:Int) ≤ 3 ∧ (3:Int) + 3 ≤ 340) ∧
    circle_circle_exact_property 10 5 3 4 5 3 :=
  ⟨by decide,
   C3_circle_circle_exact 10 5 3 4 5 3 (by decide) (by decide) (by decide) (by decide)
     (by decide) (by decide) (by decide) (by decide) (by decide) (by decide) (by decide)⟩

/-- C1 counterexample: against a circular `other` whose center is offset by
(10, 0), `collision_bounce` negates the x velocity component — the axis
with the LARGER positional delta — so the claimed behaviour (negate the
smaller-delta axis, here y, leaving x unchanged, which would give velocity
(2, -1)) does not hold. -/
theorem C1_bounce_smaller_axis_counterexample :
    (collision_bounce cx_bounce_self_moving cx_bounce_other).velocity = { x := -2, y := 1 } ∧
    ¬ (collision_bounce cx_bounce_self_moving cx_bounce_other).velocity = { x := 2, y := -1 } := by
  decide

/-- C1 (amended): for a collision response via `collision_bounce` where the
other object's shape is a circle, the bounce negates self's velocity
component on the axis with the LARGER positional delta between the two
centers (ties go to y), leaving the other component unchanged. -/
theorem C1_bounce_larger_axis (self other : PhysicsObject)
    (h : get_shape_type other.visual = .circle) :
    bounce_axis_property self other := by
  unfold bounce_axis_property collision_bounce
  rw [h]
  constructor <;> intro hcmp
  · rw [if_pos hcmp]
    exact ⟨rfl, rfl⟩
  · rw [if_neg (not_lt.mpr hcmp)]
    exact ⟨rfl, rfl⟩

theorem C1_bounce_larger_axis_witness :
    get_shape_type cx_bounce_other.visual = .circle ∧
    bounce_axis_property cx_bounce_self_moving cx_bounce_other :=
  ⟨by decide, C1_bounce_larger_axis cx_bounce_self_moving cx_bounce_other (by decide)⟩

theorem speed_curve_bounds (a : Int) (h0 : 0 ≤ a) (h1 : a ≤ 2048) :
    0 ≤ speed_curve a ∧ speed_curve a ≤ 8 := by
  unfold speed_curve PADDLE_DEFLECTION_LOW PADDLE_DEFLECTION_MID PADDLE_SPEED_LOW
    PADDLE_SPEED_MID PADDLE_SPEED_HIGH
  split_ifs <;> omega

theorem speed_curve_mono (a1 a2 : Int) (h0 : 0 ≤ a1) (h12 : a1 ≤ a2) (h2 : a2 ≤ 2048) :
    speed_curve a1 ≤ speed_curve a2 := by
  unfold speed_curve PADDLE_DEFLECTION_LOW PADDLE_DEFLECTION_MID PADDLE_SPEED_LOW
    PADDLE_SPEED_MID PADDLE_SPEED_HIGH
  split_ifs <;> omega

theorem map_to_velocity_nonneg_spec (a : Int) (h0 : 0 ≤ a) (h1 : a ≤ 2048) :
    map_to_velocity a = speed_curve a := by
  unfold map_to_velocity speed_curve PADDLE_DEFLECTION_LOW PADDLE_DEFLECTION_MID
    PADDLE_SPEED_LOW PADDLE_SPEED_MID PADDLE_SPEED_HIGH MAX_PADDLE_SPEED
  dsimp only
  have hneg : ¬ (a < 0) := by omega
  simp only [if_neg hneg]
  rw [toInt16_eq_self a (by omega) (by omega)]
  rcases lt_or_le a 512 with hseg | hseg
  · simp only [if_pos hseg]
    rw [Int.tdiv_eq_ediv (by omega) (by norm_num)]
    rw [if_neg (show ¬ (a * 2 / 512 > 8) from by omega), mul_one]
    exact toInt8_eq_self _ (by omega) (by omega)
  · rcases lt_or_le a 1536 with hseg2 | hseg2
    · simp only [if_neg (not_lt.mpr hseg), if_pos hseg2]
      rw [Int.tdiv_eq_ediv (by omega) (by norm_num)]
      rw [if_neg (show ¬ (2 + (a - 512) * (4 - 2) / (1536 - 512) > 8) from by omega), mul_one]
      rw [show (4:Int) - 2 = 2 from by norm_num, show (1536:Int) - 512 = 1024 from by norm_num]
      exact toInt8_eq_self _ (by omega) (by omega)
    · simp only [if_neg (not_lt.mpr hseg), if_neg (not_lt.mpr hseg2)]
      rw [Int.tdiv_eq_ediv (by omega) (by norm_num)]
      rw [if_neg (show ¬ (4 + (a - 1536) * (8 - 4) / (2048 - 1536) > 8) from by omega), mul_one]
      rw [show (8:Int) - 4 = 4 from by norm_num, show (2048:Int) - 1536 = 512 from by norm_num]
      exact toInt8_eq_self _ (by omega) (by omega)

theorem map_to_velocity_neg_spec (n : Int) (h0 : n < 0) (h1 : -2048 ≤ n) :
    map_to_velocity n = -speed_curve (-n) := by
  unfold map_to_velocity speed_curve PADDLE_DEFLECTION_LOW PADDLE_DEFLECTION_MID
    PADDLE_SPEED_LOW PADDLE_SPEED_MID PADDLE_SPEED_HIGH MAX_PADDLE_SPEED
  dsimp only
  simp only [if_pos h0]
  rw [toInt16_eq_self (-n) (by omega) (by omega)]
  rcases lt_or_le (-n) 512 with hseg | hseg
  · simp only [if_pos hseg]
    rw [Int.tdiv_eq_ediv (by omega) (by norm_num)]
    rw [if_neg (show ¬ (-n * 2 / 512 > 8) from by omega)]
    rw [show -n * 2 / 512 * -1 = -(-n * 2 / 512) from by ring]
    exact toInt8_eq_self _ (by omega) (by omega)
  · rcases lt_or_le (-n) 1536 with hseg2 | hseg2
    · simp only [if_neg (not_lt.mpr hseg), if_pos hseg2]
      rw [Int.tdiv_eq_ediv (by omega) (by norm_num)]
      rw [if_neg (show ¬ (2 + (-n - 512) * (4 - 2) / (1536 - 512) > 8) from by omega)]
      rw [show (2 + (-n - 512) * (4 - 2) / (1536 - 512)) * -1 =
            -(2 + (-n - 512) * (4 - 2) / (1536 - 512)) from by ring]
      rw [show (4:Int) - 2 = 2 from by norm_num, show (1536:Int) - 512 = 1024 from by norm_num]
      exact toInt8_eq_self _ (by omega) (by omega)
    · simp only [if_neg (not_lt.mpr hseg), if_neg (not_lt.mpr hseg2)]
      rw [Int.tdiv_eq_ediv (by omega) (by norm_num)]
      rw [if_neg (show ¬ (4 + (-n - 1536) * (8 - 4) / (2048 - 1536) > 8) from by omega)]
      rw [show (4 + (-n - 1536) * (8 - 4) / (2048 - 1536)) * -1 =
            -(4 + (-n - 1536) * (8 - 4) / (2048 - 1536)) from by ring]
      rw [show (8:Int) - 4 = 4 from by norm_num, show (2048:Int) - 1536 = 512 from by norm_num]
      exact toInt8_eq_self _ (by omega) (by omega)

/-- C8: the joystick-to-velocity curve is monotone within each half of the
deflection range: for deflection magnitudes m1 < m2 of the same sign
(within full deflection), the target velocity magnitude at m1 is at most
the magnitude at m2. -/
theorem C8_curve_monotone (n1 n2 : Int)
    (hsame : (0 ≤ n1 ∧ 0 ≤ n2) ∨ (n1 ≤ 0 ∧ n2 ≤ 0))
    (hlt : |n1| < |n2|) (hmax : |n2| ≤ 2048) :
    |map_to_velocity n1| ≤ |map_to_velocity n2| := by
  rcases hsame with ⟨h1, h2⟩ | ⟨h1, h2⟩
  · rw [abs_of_nonneg h1] at hlt
    rw [abs_of_nonneg h2] at hlt hmax
    rw [map_to_velocity_nonneg_spec n1 h1 (by omega),
        map_to_velocity_nonneg_spec n2 h2 (by omega)]
    obtain ⟨hb1a, hb1b⟩ := speed_curve_bounds n1 h1 (by omega)
    obtain ⟨hb2a, hb2b⟩ := speed_curve_bounds n2 h2 (by omega)
    rw [abs_of_nonneg hb1a, abs_of_nonneg hb2a]
    exact speed_curve_mono n1 n2 h1 (by omega) (by omega)
  · rw [abs_of_nonpos h1] at hlt
    rw [abs_of_nonpos h2] at hlt hmax
    have hn2 : n2 < 0 := by omega
    obtain ⟨hb2a, hb2b⟩ := speed_curve_bounds (-n2) (by omega) (by omega)
    have e2 : map_to_velocity n2 = -speed_curve (-n2) :=
      map_to_velocity_neg_spec n2 hn2 (by omega)
    rcases eq_or_lt_of_le h1 with h1z | h1n
    · rw [h1z]
      have e0 : map_to_velocity 0 = speed_curve 0 := map_to_velocity_nonneg_spec 0 le_rfl (by norm_num)
      rw [e0, show speed_curve 0 = 0 from by decide, abs_zero]
      exact abs_nonneg _
    · have e1 : map_to_velocity n1 = -speed_curve (-n1) :=
        map_to_velocity_neg_spec n1 h1n (by omega)
      obtain ⟨hb1a, hb1b⟩ := speed_curve_bounds (-n1) (by omega) (by omega)
      rw [e1, e2, abs_neg, abs_neg, abs_of_nonneg hb1a, abs_of_nonneg hb2a]
      exact speed_curve_mono (-n1) (-n2) (by omega) (by omega) (by omega)

theorem C8_curve_monotone_witness :
    (((0:Int) ≤ 100 ∧ (0:Int) ≤ 2000) ∨ ((100:Int) ≤ 0 ∧ (2000:Int) ≤ 0)) ∧
    |(100:Int)| < |(2000:Int)| ∧ |(2000:Int)| ≤ 2048 ∧
    |map_to_velocity 100| ≤ |map_to_velocity 2000| :=
  ⟨Or.inl ⟨by decide, by decide⟩, by decide, by decide,
   C8_curve_monotone 100 2000 (Or.inl ⟨by decide, by decide⟩) (by decide) (by decide)⟩

/-- C7: any raw joystick sample whose signed delta from the 2048 center
lies strictly inside the deadzone band maps to a target paddle velocity of
exactly zero, with or without the boost button held. -/
theorem C7_deadzone_zero_target (raw : Int) (boost : Bool)
    (hlo : -JOYSTICK_DEADZONE < raw - 2048) (hhi : raw - 2048 < JOYSTICK_DEADZONE) :
    compute_target_velocity raw boost = 0 := by
  have hz : normalize_adc raw = 0 := by
    unfold normalize_adc JOYSTICK_DEADZONE at *
    rw [toInt16_eq_self raw (by omega) (by omega),
        toInt16_eq_self (raw - 2048) (by omega) (by omega)]
    dsimp only
    split_ifs <;> omega
  cases boost <;> simp [compute_target_velocity, hz] <;> decide

theorem C7_deadzone_zero_target_witness :
    (-JOYSTICK_DEADZONE < (2053:Int) - 2048) ∧ ((2053:Int) - 2048 < JOYSTICK_DEADZONE) ∧
    compute_target_velocity 2053 true = 0 :=
  ⟨by decide, by decide, C7_deadzone_zero_target 2053 true (by decide) (by decide)⟩

/-! ## Frame-update projection facts -/

theorem paddle_input_phase_state (gc : GameController) (inp : FrameInput) :
    (paddle_input_phase gc inp).state = gc.state := rfl

theorem paddle_input_phase_ball (gc : GameController) (inp : FrameInput) :
    (paddle_input_phase gc inp).ball = gc.ball := rfl

theorem paddle_input_phase_cooldown (gc : GameController) (inp : FrameInput) :
    (paddle_input_phase gc inp).paddle_collision_cooldown = gc.paddle_collision_cooldown := rfl

theorem paddle_input_phase_timer (gc : GameController) (inp : FrameInput) :
    (paddle_input_phase gc inp).countdown_timer = gc.countdown_timer := rfl

theorem paddle_input_phase_paused_vel (gc : GameController) (inp : FrameInput) :
    (paddle_input_phase gc inp).paused_ball_velocity = gc.paused_ball_velocity := rfl

theorem paddle_input_phase_prev (gc : GameController) (inp : FrameInput) :
    (paddle_input_phase gc inp).button1_prev_state = gc.button1_prev_state := rfl

theorem update_state_eq (gc : GameController) (inp : FrameInput) :
    (update_game_controller gc inp).state =
    (state_machine_phase (paddle_input_phase gc inp) inp).state := rfl

theorem update_ball_eq (gc : GameController) (inp : FrameInput) :
    (update_game_controller gc inp).ball =
    (state_machine_phase (paddle_input_phase gc inp) inp).ball := rfl

theorem update_timer_eq (gc : GameController) (inp : FrameInput) :
    (update_game_controller gc inp).countdown_timer =
    (state_machine_phase (paddle_input_phase gc inp) inp).countdown_timer := rfl

theorem update_paused_vel_eq (gc : GameController) (inp : FrameInput) :
    (update_game_controller gc inp).paused_ball_velocity =
    (state_machine_phase (paddle_input_phase gc inp) inp).paused_ball_velocity := rfl

theorem update_paddles_eq (gc : GameController) (inp : FrameInput) :
    (update_game_controller gc inp).paddles =
    (state_machine_phase (paddle_input_phase gc inp) inp).paddles := rfl

theorem update_cooldown_eq (gc : GameController) (inp : FrameInput) :
    (update_game_controller gc inp).paddle_collision_cooldown =
    ((state_machine_phase (paddle_input_phase gc inp) inp).paddle_collision_cooldown).map
      (fun c => if c > 0 then c - 1 else c) := rfl

theorem Quad.get_map {α β : Type} (f : α → β) (q : Quad α) (i : Fin 4) :
    (q.map f).get i = f (q.get i) := by
  fin_cases i <;> rfl

theorem run_frames_nil (gc : GameController) : run_frames gc [] = gc := rfl

theorem run_frames_cons (gc : GameController) (i : FrameInput) (ins : List FrameInput) :
    run_frames gc (i :: ins) = run_frames (update_game_controller gc i) ins := rfl

/-! ## State-machine branch equations -/

theorem state_machine_phase_paused_edge (ctrl : GameController) (inp : FrameInput)
    (h : ctrl.state = .paused) (hb : inp.button1 = true)
    (hp : ctrl.button1_prev_state = false) :
    state_machine_phase ctrl inp =
      { ctrl with
        countdown_timer := 36
        state := .countdown } := by
  unfold state_machine_phase
  rw [h, hb, hp]
  rfl

theorem state_machine_phase_countdown_cont (ctrl : GameController) (inp : FrameInput)
    (h : ctrl.state = .countdown) (ht : 1 < ctrl.countdown_timer) :
    state_machine_phase ctrl inp = { ctrl with countdown_timer := ctrl.countdown_timer - 1 } := by
  unfold state_machine_phase
  rw [h]
  dsimp only
  rw [if_pos (show ctrl.countdown_timer > 0 from by omega),
      if_neg (show ¬ (ctrl.countdown_timer - 1 = 0) from by omega)]

theorem state_machine_phase_countdown_fire (ctrl : GameController) (inp : FrameInput)
    (h : ctrl.state = .countdown) (ht : ctrl.countdown_timer = 1) :
    state_machine_phase ctrl inp =
      { ctrl with
        countdown_timer := 0
        ball := set_physics_velocity ctrl.ball ctrl.paused_ball_velocity
        state := .ball_moving } := by
  unfold state_machine_phase
  rw [h]
  dsimp only
  rw [if_pos (show ctrl.countdown_timer > 0 from by omega),
      if_pos (show ctrl.countdown_timer - 1 = 0 from by omega), ht]
  norm_num

/-! ## Countdown runs -/

theorem step_countdown_cont (gc : GameController) (inp : FrameInput)
    (h : gc.state = .countdown) (ht : 1 < gc.countdown_timer) :
    (update_game_controller gc inp).state = .countdown ∧
    (update_game_controller gc inp).countdown_timer = gc.countdown_timer - 1 ∧
    (update_game_controller gc inp).ball = gc.ball ∧
    (update_game_controller gc inp).paused_ball_velocity = gc.paused_ball_velocity := by
  have heq := state_machine_phase_countdown_cont (paddle_input_phase gc inp) inp
    (by rw [paddle_input_phase_state, h]) (by rw [paddle_input_phase_timer]; exact ht)
  refine ⟨?_, ?_, ?_, ?_⟩
  · rw [update_state_eq, heq]
    show (paddle_input_phase gc inp).state = .countdown
    rw [paddle_input_phase_state, h]
  · rw [update_timer_eq, heq]
    show (paddle_input_phase gc inp).countdown_timer - 1 = gc.countdown_timer - 1
    rw [paddle_input_phase_timer]
  · rw [update_ball_eq, heq]
    exact paddle_input_phase_ball gc inp
  · rw [update_paused_vel_eq, heq]
    exact paddle_input_phase_paused_vel gc inp

theorem step_countdown_fire (gc : GameController) (inp : FrameInput)
    (h : gc.state = .countdown) (ht : gc.countdown_timer = 1) :
    (update_game_controller gc inp).state = .ball_moving ∧
    (update_game_controller gc inp).ball.velocity = gc.paused_ball_velocity := by
  have heq := state_machine_phase_countdown_fire (paddle_input_phase gc inp) inp
    (by rw [paddle_input_phase_state, h]) (by rw [paddle_input_phase_timer]; exact ht)
  constructor
  · rw [update_state_eq, heq]
  · rw [update_ball_eq, heq]
    show (paddle_input_phase gc inp).paused_ball_velocity = gc.paused_ball_velocity
    exact paddle_input_phase_paused_vel gc inp

theorem run_frames_countdown_running (ins : List FrameInput) : ∀ gc : GameController,
    gc.state = .countdown → (ins.length : Int) < gc.countdown_timer →
    (run_frames gc ins).state = .countdown ∧
    (run_frames gc ins).countdown_timer = gc.countdown_timer - ins.length ∧
    (run_frames gc ins).ball = gc.ball ∧
    (run_frames gc ins).paused_ball_velocity = gc.paused_ball_velocity := by
  induction ins with
  | nil =>
    intro gc h ht
    refine ⟨h, ?_, rfl, rfl⟩
    simp [run_frames]
  | cons i rest ih =>
    intro gc h ht
    rw [List.length_cons] at ht
    push_cast at ht
    have ht' : 1 < gc.countdown_timer := by omega
    obtain ⟨s1, s2, s3, s4⟩ := step_countdown_cont gc i h ht'
    rw [run_frames_cons]
    obtain ⟨t1, t2, t3, t4⟩ := ih (update_game_controller gc i) s1 (by rw [s2]; omega)
    refine ⟨t1, ?_, t3.trans s3, t4.trans s4⟩
    rw [t2, s2, List.length_cons]
    push_cast
    ring

theorem run_frames_countdown_fire (ins : List FrameInput) : ∀ gc : GameController,
    gc.state = .countdown → (ins.length : Int) = gc.countdown_timer → ins ≠ [] →
    (run_frames gc ins).state = .ball_moving ∧
    (run_frames gc ins).ball.velocity = gc.paused_ball_velocity := by
  induction ins with
  | nil => intro gc _ _ hne; exact absurd rfl hne
  | cons i rest ih =>
    intro gc h ht _
    rw [List.length_cons] at ht
    push_cast at ht
    rcases rest with _ | ⟨j, rest'⟩
    · have ht1 : gc.countdown_timer = 1 := by simp at ht; omega
      rw [run_frames_cons, run_frames_nil]
      exact step_countdown_fire gc i h ht1
    · have ht' : 1 < gc.countdown_timer := by
        have hlen : 1 ≤ (j :: rest').length := by simp
        omega
      obtain ⟨s1, s2, s3, s4⟩ := step_countdown_cont gc i h ht'
      rw [run_frames_cons]
      obtain ⟨t1, t2⟩ := ih (update_game_controller gc i) s1 (by rw [s2]; omega) (by simp)
      exact ⟨t1, by rw [t2, s4]⟩

/-- C6: in Paused, a rising button edge arms the 36-frame countdown and
transitions to Countdown; after exactly those 36 subsequent frame updates
the state is BallMoving and the ball's velocity equals the velocity saved
when the game was paused; fewer frames leave it in Countdown. -/
theorem C6_paused_resume (gc : GameController) (inp : FrameInput)
    (hst : gc.state = .paused) (hb : inp.button1 = true)
    (hp : gc.button1_prev_state = false) :
    paused_resume_property gc inp := by
  have heq := state_machine_phase_paused_edge (paddle_input_phase gc inp) inp
    (by rw [paddle_input_phase_state, hst]) hb
    (by rw [paddle_input_phase_prev]; exact hp)
  have g1s : (update_game_controller gc inp).state = .countdown := by
    rw [update_state_eq, heq]
  have g1t : (update_game_controller gc inp).countdown_timer = 36 := by
    rw [update_timer_eq, heq]
  have g1p : (update_game_controller gc inp).paused_ball_velocity = gc.paused_ball_velocity := by
    rw [update_paused_vel_eq, heq]
    exact paddle_input_phase_paused_vel gc inp
  refine ⟨g1s, g1t, ?_, ?_⟩
  · intro ins hlen
    obtain ⟨a, b⟩ := run_frames_countdown_fire ins (update_game_controller gc inp) g1s
      (by rw [g1t, hlen]; norm_num) (by intro hnil; rw [hnil] at hlen; simp at hlen)
    exact ⟨a, by rw [b, g1p]⟩
  · intro ins hlen
    exact (run_frames_countdown_running ins (update_game_controller gc inp) g1s
      (by rw [g1t]; exact_mod_cast hlen)).1

theorem C6_paused_resume_witness :
    gc_paused_ex.state = .paused ∧ inp_center_press.button1 = true ∧
    gc_paused_ex.button1_prev_state = false ∧
    paused_resume_property gc_paused_ex inp_center_press :=
  ⟨by decide, by decide, by decide,
   C6_paused_resume gc_paused_ex inp_center_press (by decide) (by decide) (by decide)⟩

/-! ## Cooldown behaviour -/

theorem paddle_collision_step_cooldown (b p : PhysicsObject) (c s : Int) :
    (paddle_collision_step b p c s).cooldown = c ∨
    ((paddle_collision_step b p c s).cooldown = PADDLE_COLLISION_COOLDOWN_FRAMES ∧ c = 0) := by
  unfold paddle_collision_step
  dsimp only
  split_ifs with h1 h2
  · right; exact ⟨rfl, h1⟩
  · left; rfl
  · left; rfl

theorem state_machine_phase_cooldown (ctrl : GameController) (inp : FrameInput) (i : Fin 4) :
    (state_machine_phase ctrl inp).paddle_collision_cooldown.get i =
      ctrl.paddle_collision_cooldown.get i ∨
    ((state_machine_phase ctrl inp).paddle_collision_cooldown.get i = 0 ∧
      ctrl.state = .title ∧ inp.button1 = true ∧ ctrl.button1_prev_state = false) ∨
    ((state_machine_phase ctrl inp).paddle_collision_cooldown.get i =
        PADDLE_COLLISION_COOLDOWN_FRAMES ∧
      ctrl.paddle_collision_cooldown.get i = 0) := by
  unfold state_machine_phase
  cases hs : ctrl.state <;> dsimp only
  · by_cases hb : (inp.button1 && !ctrl.button1_prev_state) = true
    · rw [if_pos hb]
      refine Or.inr (Or.inl ⟨?_, rfl, ?_, ?_⟩)
      · fin_cases i <;> rfl
      · exact (Bool.and_eq_true _ _).mp hb |>.1
      · have := (Bool.and_eq_true _ _).mp hb |>.2
        simpa using this
    · rw [if_neg hb]
      exact Or.inl rfl
  · split_ifs <;> exact Or.inl rfl
  · by_cases hb : (inp.button1 && !ctrl.button1_prev_state) = true
    · rw [if_pos hb]
      exact Or.inl rfl
    · rw [if_neg hb]
      dsimp only
      fin_cases i
      · show (paddle_collision_step _ _ ctrl.paddle_collision_cooldown.q0 _).cooldown = _ ∨ _
        rcases paddle_collision_step_cooldown (update_physics ctrl.ball) ctrl.paddles.q0
            ctrl.paddle_collision_cooldown.q0 ctrl.score with h | ⟨h, hz⟩
        · exact Or.inl h
        · exact Or.inr (Or.inr ⟨h, hz⟩)
      · show (paddle_collision_step _ _ ctrl.paddle_collision_cooldown.q1 _).cooldown = _ ∨ _
        rcases paddle_collision_step_cooldown _ ctrl.paddles.q1
            ctrl.paddle_collision_cooldown.q1 _ with h | ⟨h, hz⟩
        · exact Or.inl h
        · exact Or.inr (Or.inr ⟨h, hz⟩)
      · show (paddle_collision_step _ _ ctrl.paddle_collision_cooldown.q2 _).cooldown = _ ∨ _
        rcases paddle_collision_step_cooldown _ ctrl.paddles.q2
            ctrl.paddle_collision_cooldown.q2 _ with h | ⟨h, hz⟩
        · exact Or.inl h
        · exact Or.inr (Or.inr ⟨h, hz⟩)
      · show (paddle_collision_step _ _ ctrl.paddle_collision_cooldown.q3 _).cooldown = _ ∨ _
        rcases paddle_collision_step_cooldown _ ctrl.paddles.q3
            ctrl.paddle_collision_cooldown.q3 _ with h | ⟨h, hz⟩
        · exact Or.inl h
        · exact Or.inr (Or.inr ⟨h, hz⟩)
  · split_ifs <;> exact Or.inl rfl
  · split_ifs <;> exact Or.inl rfl
  · split_ifs <;> exact Or.inl rfl

/-- C9 counterexample: in Title with a pending button edge, a nonzero
cooldown of 3 is reset straight to 0 in one frame — it does not decrease by
at most 1 (which would leave 2 or 3). -/
theorem C9_cooldown_counterexample :
    0 < gc_title_cooldown3.paddle_collision_cooldown.q0 ∧
    (update_game_controller gc_title_cooldown3 inp_center_press).paddle_collision_cooldown.q0 = 0 ∧
    ¬ ((update_game_controller gc_title_cooldown3 inp_center_press).paddle_collision_cooldown.q0 = 2 ∨
       (update_game_controller gc_title_cooldown3 inp_center_press).paddle_collision_cooldown.q0 = 3) := by
  decide

/-- C9 (amended): for every paddle index and frame update, the cooldown
stays nonnegative; when nonzero it decreases by exactly 1, except that the
Title→BallAtRest button edge resets it to 0; from zero it either stays 0 or
is armed to the cooldown constant by a ball–paddle hit (and decremented
once within the same frame), after which it monotonically decreases to 0. -/
theorem C9_cooldown_step (gc : GameController) (inp : FrameInput) (i : Fin 4)
    (h0 : 0 ≤ gc.paddle_collision_cooldown.get i) :
    cooldown_frame_property gc inp i := by
  unfold cooldown_frame_property
  have hget : (update_game_controller gc inp).paddle_collision_cooldown.get i =
      (if (state_machine_phase (paddle_input_phase gc inp) inp).paddle_collision_cooldown.get i > 0
       then (state_machine_phase (paddle_input_phase gc inp) inp).paddle_collision_cooldown.get i - 1
       else (state_machine_phase (paddle_input_phase gc inp) inp).paddle_collision_cooldown.get i) := by
    rw [update_cooldown_eq]
    exact Quad.get_map _ _ i
  have hmid := state_machine_phase_cooldown (paddle_input_phase gc inp) inp i
  rw [paddle_input_phase_cooldown, paddle_input_phase_state, paddle_input_phase_prev] at hmid
  unfold PADDLE_COLLISION_COOLDOWN_FRAMES at *
  rcases hmid with h | ⟨h, hs, hb, hp⟩ | ⟨h, hz⟩
  · rw [hget, h]
    refine ⟨?_, ?_, ?_⟩
    · split_ifs <;> omega
    · intro hpos
      left
      rw [if_pos (show gc.paddle_collision_cooldown.get i > 0 from hpos)]
    · intro hzero
      left
      rw [hzero]
      norm_num
  · rw [hget, h]
    refine ⟨by norm_num, ?_, ?_⟩
    · intro _
      exact Or.inr ⟨hs, hb, hp, by norm_num⟩
    · intro _
      left
      norm_num
  · rw [hget, h, hz]
    refine ⟨by norm_num, ?_, ?_⟩
    · intro hpos
      omega
    · intro _
      right
      norm_num

theorem C9_cooldown_step_witness :
    0 ≤ init_game_controller.paddle_collision_cooldown.get 0 ∧
    cooldown_frame_property init_game_controller inp_center_idle 0 :=
  ⟨by decide, C9_cooldown_step init_game_controller inp_center_idle 0 (by decide)⟩

/-- C2 counterexample: in the Title state a frame update with a deflected
joystick still moves a paddle — the input-to-motion pipeline runs and the
paddle position changes. -/
theorem C2_title_input_counterexample :
    init_game_controller.state = .title ∧
    (update_game_controller init_game_controller cx_hard_left_input).paddles.q0.position ≠
      init_game_controller.paddles.q0.position := by
  decide

/-- C2 (amended): the input-to-motion pipeline runs unconditionally in
every frame update — in Title and GameOver exactly as in gameplay states —
and the paddle array and smoothed velocities after the update are exactly
the pipeline's output (the Title/GameOver state-machine branches leave them
untouched). -/
theorem C2_pipeline_always_runs (gc : GameController) (inp : FrameInput)
    (h : gc.state = .title ∨ gc.state = .game_over) :
    (update_game_controller gc inp).paddles = (paddle_input_phase gc inp).paddles ∧
    (update_game_controller gc inp).paddle_current_velocity_x =
      (paddle_input_phase gc inp).paddle_current_velocity_x ∧
    (update_game_controller gc inp).paddle_current_velocity_y =
      (paddle_input_phase gc inp).paddle_current_velocity_y := by
  have hb : (update_game_controller gc inp).paddles =
      (state_machine_phase (paddle_input_phase gc inp) inp).paddles := rfl
  have hx : (update_game_controller gc inp).paddle_current_velocity_x =
      (state_machine_phase (paddle_input_phase gc inp) inp).paddle_current_velocity_x := rfl
  have hy : (update_game_controller gc inp).paddle_current_velocity_y =
      (state_machine_phase (paddle_input_phase gc inp) inp).paddle_current_velocity_y := rfl
  rcases h with h | h
  · have hs : (paddle_input_phase gc inp).state = .title := by
      rw [paddle_input_phase_state, h]
    rw [hb, hx, hy]
    unfold state_machine_phase
    rw [hs]
    dsimp only
    split_ifs <;> exact ⟨rfl, rfl, rfl⟩
  · have hs : (paddle_input_phase gc inp).state = .game_over := by
      rw [paddle_input_phase_state, h]
    rw [hb, hx, hy]
    unfold state_machine_phase
    rw [hs]
    dsimp only
    split_ifs <;> exact ⟨rfl, rfl, rfl⟩

theorem C2_pipeline_always_runs_witness :
    (init_game_controller.state = .title ∨ init_game_controller.state = .game_over) ∧
    ((update_game_controller init_game_controller inp_center_idle).paddles =
       (paddle_input_phase init_game_controller inp_center_idle).paddles ∧
     (update_game_controller init_game_controller inp_center_idle).paddle_current_velocity_x =
       (paddle_input_phase init_game_controller inp_center_idle).paddle_current_velocity_x ∧
     (update_game_controller init_game_controller inp_center_idle).paddle_current_velocity_y =
       (paddle_input_phase init_game_controller inp_center_idle).paddle_current_velocity_y) :=
  ⟨Or.inl (by decide),
   C2_pipeline_always_runs init_game_controller inp_center_idle (Or.inl (by decide))⟩

end PaddlePanic
